import Mathlib

/-!
EARA-IO boost controller.

A shallow embedding of `drivers/misc/mpbe/mpbe-earaio.c`: the peeking-window
accounting (`mpbe_earaio_update_pwd`), the boost state machine
(`__mpbe_earaio_boost`, `mpbe_earaio_boost`, `mpbe_earaio_check_pwd`), the
uevent delivery loop (`mpbe_earaio_uevt_worker`, `mpbe_earaio_send_uevt`) and
the procfs control write (`mpbe_earaio_ctrl_sub_write`).

The C file keeps its state in two static objects, `earaio_ctrl` and
`earaio_obj`.  Here they are the fields of `Machine`, passed explicitly.
Calls that leave the file (work queue, telemetry, uevent, misc device) are
appended to `Machine.trace` in program order.  Every `sched_clock()` read is an
explicit argument.  `pr_info` and `MPBE_DBG` lines only print and are left out.
Locking is not modelled: each function is taken as one step, except the `'0'`
control write, whose two statements hold no lock between them and are also
run with other entry points in between (`Run.ctrl_sub_write_interleaved`).
-/

namespace MpbeEaraio

/-! ## Constants -/

/-- Macro `MICTX_PROC_CMD_BUF_SIZE`, defined as `(1)`. -/
def MICTX_PROC_CMD_BUF_SIZE : Nat := 1

/-- Macro `PWD_WIDTH_NS`, defined as `100000000`: 100 ms in nanoseconds. -/
def PWD_WIDTH_NS : Nat := 100000000

/-- Macro `EARAIO_UEVT_THRESHOLD_PAGES`, defined as `((32 * 1024 * 1024) >> 12)`. -/
def EARAIO_UEVT_THRESHOLD_PAGES : Nat := (32 * 1024 * 1024) >>> 12

/-- Constant `MISC_DYNAMIC_MINOR` of `linux/miscdevice.h`. -/
def MISC_DYNAMIC_MINOR : Int := 255

/-! ## State -/

/-- Calls to functions defined outside the file, in the order they are made. -/
inductive Call where
  /-- Call `queue_work(earaio_ctrl.uevt_workq, &earaio_ctrl.uevt_work)`. -/
  | queue_work
  /-- Call `mpbe_mictx_check_window(earaio_ctrl.mictx_id)`. -/
  | mpbe_mictx_check_window (storage : Nat)
  /-- Call `mpbe_mictx_enable(&earaio_ctrl.mictx_id, 1)`. -/
  | mpbe_mictx_enable (storage : Nat)
  /-- Call `kobject_uevent_env(.., KOBJ_CHANGE, envp)` with the event string and the
  value it returned. -/
  | kobject_uevent_env (event_string : List Char) (ret : Int)
  /-- Call `misc_register(&earaio_obj)` and the value it returned. -/
  | misc_register (ret : Int)
  /-- Call `kobject_uevent(.., KOBJ_ADD)` and the value it returned. -/
  | kobject_uevent (ret : Int)
  /-- Call `misc_deregister(&earaio_obj)`. -/
  | misc_deregister
  /-- Call `proc_create("eara_io", ..)` made by `mpbe_eara_ioctl_init`. -/
  | proc_create_eara_io
  /-- Call `proc_create("earaio_ctrl", ..)`. -/
  | proc_create_earaio_ctrl
  deriving DecidableEq, Repr

/-- Modelled from the spec: `struct mpbe_earaio_control` is declared in `mpbe.h`,
which is not among the sources.  The fields are those the C file reads or
writes on `earaio_ctrl`; following the data model of the spec the four flags
are booleans, the two page counters are unsigned integers (their width is the
`bits` argument of `mpbe_earaio_update_pwd`) and `pwd_begin` is a nanosecond
timestamp.  The lock, the work queue and the work item are not fields here; a
queued work item shows up as `Call.queue_work` in `Machine.trace`. -/
structure mpbe_earaio_control where
  enabled : Bool
  boosted : Bool
  uevt_req : Bool
  uevt_state : Bool
  pwd_begin : Nat
  pwd_top_r_pages : Nat
  pwd_top_w_pages : Nat
  /-- Field `mictx_id.storage`. -/
  mictx_storage : Nat
  deriving DecidableEq, Repr

/-- The static objects of the file together with the trace of outside calls. -/
structure Machine where
  /-- Object `static struct mpbe_earaio_control earaio_ctrl`. -/
  earaio_ctrl : mpbe_earaio_control
  /-- Field `earaio_obj.minor`, an `int`. -/
  earaio_obj_minor : Int
  trace : List Call
  deriving DecidableEq, Repr

/-- Static storage is zero-initialised: the state before any function ran. -/
def Machine.boot : Machine :=
  { earaio_ctrl :=
      { enabled := false, boosted := false, uevt_req := false, uevt_state := false,
        pwd_begin := 0, pwd_top_r_pages := 0, pwd_top_w_pages := 0, mictx_storage := 0 },
    earaio_obj_minor := 0,
    trace := [] }

/-- Number of `queue_work` calls recorded in a trace. -/
def queued (tr : List Call) : Nat := tr.count Call.queue_work

/-- Number of `mpbe_mictx_check_window` calls recorded in a trace. -/
def window_checks (tr : List Call) : Nat :=
  (tr.filter fun c => match c with
    | Call.mpbe_mictx_check_window _ => true
    | _ => false).length

/-- The peeking window of a state: read pages, write pages and start time. -/
def window (s : Machine) : Nat × Nat × Nat :=
  (s.earaio_ctrl.pwd_top_r_pages, s.earaio_ctrl.pwd_top_w_pages, s.earaio_ctrl.pwd_begin)

/-! ## Machine arithmetic -/

/-- Subtraction of two `u64` values, as in `sched_clock() - earaio_ctrl.pwd_begin`;
`sched_clock()` returns `u64` and `pwd_begin`, declared in `mpbe.h`, stores it. -/
def u64_sub (a b : Nat) : Nat := (a % 2 ^ 64 + 2 ^ 64 - b % 2 ^ 64) % 2 ^ 64

/-! ## Notifier -/

/-- Function `static bool mpbe_earaio_send_uevt(bool boost)`. -/
def mpbe_earaio_send_uevt (boost : Bool) (s : Machine) : Bool × Machine :=
  (true,
   { s with
     earaio_ctrl := { s.earaio_ctrl with uevt_req := boost },
     trace := s.trace ++ [Call.queue_work] })

/-- The text `snprintf(event_string, EVT_STR_SIZE, "boost=%d", boost ? 1 : 0)`
writes. -/
def event_string (boost : Bool) : List Char :=
  ['b', 'o', 'o', 's', 't', '='] ++ [if boost then '1' else '0']

/-- Function `static void mpbe_earaio_uevt_worker(struct work_struct *work)`.

The list holds the values the successive `kobject_uevent_env` calls return,
one per pass of the `start:` loop.  `none` means the list ran out while the
loop still wanted another pass. -/
def mpbe_earaio_uevt_worker : List Int → Machine → Option Machine
  | rets, s =>
    if s.earaio_ctrl.uevt_state = s.earaio_ctrl.uevt_req then
      -- quit = true
      some s
    else
      let boost := s.earaio_ctrl.uevt_req
      let ret := (event_string boost).length
      if ret = 0 then
        some s
      else
        match rets with
        | [] => none
        | r :: rest =>
          let s1 : Machine :=
            { s with trace := s.trace ++ [Call.kobject_uevent_env (event_string boost) r] }
          let s2 : Machine :=
            if r ≠ 0 then s1
            else { s1 with earaio_ctrl := { s1.earaio_ctrl with uevt_state := boost } }
          if s2.earaio_ctrl.uevt_state ≠ s2.earaio_ctrl.uevt_req then
            mpbe_earaio_uevt_worker rest s2
          else
            some s2

/-! ## Boost state machine -/

/-- Function `static int __mpbe_earaio_boost(bool boost)`; the result pairs the
returned `changed` with the new state. -/
def __mpbe_earaio_boost (boost : Bool) (s : Machine) : Int × Machine :=
  if (!(xor boost s.earaio_ctrl.boosted)) = true then
    (0, s)
  else
    let r : Int × Machine :=
      if boost = true then
        if s.earaio_ctrl.pwd_top_r_pages ≥ EARAIO_UEVT_THRESHOLD_PAGES ∨
            s.earaio_ctrl.pwd_top_w_pages ≥ EARAIO_UEVT_THRESHOLD_PAGES then
          let u := mpbe_earaio_send_uevt true s
          ((if u.1 = true then 1 else 0), u.2)
        else
          (0, s)
      else
        let u := mpbe_earaio_send_uevt false s
        (1, u.2)
    if r.1 ≠ 0 then
      (r.1, { r.2 with earaio_ctrl := { r.2.earaio_ctrl with boosted := boost } })
    else
      (2, r.2)

/-- Function `void mpbe_earaio_boost(bool boost)`; `now` is what `sched_clock()` returns
if the window is reset. -/
def mpbe_earaio_boost (boost : Bool) (now : Nat) (s : Machine) : Machine :=
  if (!s.earaio_ctrl.enabled) = true ∨ s.earaio_obj_minor = 0 then
    s
  else
    let r := __mpbe_earaio_boost boost s
    let changed := r.1
    let s1 : Machine :=
      if boost = true ∨ changed = 1 then
        { r.2 with
          earaio_ctrl :=
            { r.2.earaio_ctrl with
              pwd_begin := now, pwd_top_r_pages := 0, pwd_top_w_pages := 0 } }
      else r.2
    if (boost = true ∧ changed = 2) ∨ (boost = false ∧ changed = 1) then
      { s1 with
        trace := s1.trace ++ [Call.mpbe_mictx_check_window s1.earaio_ctrl.mictx_storage] }
    else s1

/-- Function `void mpbe_earaio_check_pwd(void)`; `now` is the clock read by the
comparison, `now_boost` the later read inside `mpbe_earaio_boost`. -/
def mpbe_earaio_check_pwd (now now_boost : Nat) (s : Machine) : Machine :=
  if u64_sub now s.earaio_ctrl.pwd_begin ≥ PWD_WIDTH_NS then
    mpbe_earaio_boost true now_boost s
  else s

/-- Function `bool mpbe_earaio_enabled(void)`. -/
def mpbe_earaio_enabled (s : Machine) : Bool := s.earaio_ctrl.enabled

/-- Function `void mpbe_earaio_update_pwd(bool write, __u32 size)`.

`bits` is the width of the unsigned counters `pwd_top_r_pages` and
`pwd_top_w_pages`, which `mpbe.h` declares. -/
def mpbe_earaio_update_pwd (bits : Nat) (write : Bool) (size : Nat) (s : Machine) : Machine :=
  if write = true then
    { s with
      earaio_ctrl :=
        { s.earaio_ctrl with
          pwd_top_w_pages :=
            (s.earaio_ctrl.pwd_top_w_pages + ((size % 2 ^ 32) >>> 12)) % 2 ^ bits } }
  else
    { s with
      earaio_ctrl :=
        { s.earaio_ctrl with
          pwd_top_r_pages :=
            (s.earaio_ctrl.pwd_top_r_pages + ((size % 2 ^ 32) >>> 12)) % 2 ^ bits } }

/-! ## Control write -/

/-- Kernel `copy_from_user(to, from, n)`: `ubuf` lists the bytes readable at the user
address.  Returns the number of bytes not copied and the destination buffer,
whose uncopied tail is zero. -/
def copy_from_user (ubuf : List Nat) (n : Nat) : Nat × List Nat :=
  let got := ubuf.take n
  (n - got.length, got ++ List.replicate (n - got.length) 0)

/-- Function `static ssize_t mpbe_earaio_ctrl_sub_write(file, ubuf, count, ppos)`; `now`
is the clock read by the `mpbe_earaio_boost(false)` of the `'0'` branch. -/
def mpbe_earaio_ctrl_sub_write (ubuf : List Nat) (count : Nat) (now : Nat) (s : Machine) :
    Int × Machine :=
  if count = 0 then
    (-1, s)
  else
    let count := if count > MICTX_PROC_CMD_BUF_SIZE then MICTX_PROC_CMD_BUF_SIZE else count
    let cp := copy_from_user ubuf count
    let ret : Int := (cp.1 : Int)
    if ret < 0 then
      (-1, s)
    else
      let cmd0 : Nat := cp.2.getD 0 0
      if cmd0 = ('1').toNat then
        ((count : Int), { s with earaio_ctrl := { s.earaio_ctrl with enabled := true } })
      else if cmd0 = ('0').toNat then
        let s1 := mpbe_earaio_boost false now s
        ((count : Int), { s1 with earaio_ctrl := { s1.earaio_ctrl with enabled := false } })
      else
        (-1, s)

/-! ## Initialisation -/

/-- Function `void mpbe_earaio_init_mictx(vops, storage_type, btag_proc_root)`;
`vops_earaio_enabled` is `vops->earaio_enabled`. -/
def mpbe_earaio_init_mictx (vops_earaio_enabled : Bool) (storage_type : Nat) (now : Nat)
    (s : Machine) : Machine :=
  if (!vops_earaio_enabled) = true then
    s
  else
    let s1 : Machine :=
      if (!s.earaio_ctrl.enabled) = true then
        { s with
          earaio_ctrl :=
            { s.earaio_ctrl with
              enabled := true, pwd_begin := now, pwd_top_r_pages := 0,
              pwd_top_w_pages := 0, mictx_storage := storage_type } }
      else s
    { s1 with
      trace := s1.trace ++
        [Call.mpbe_mictx_enable s1.earaio_ctrl.mictx_storage,
         Call.proc_create_eara_io, Call.proc_create_earaio_ctrl] }

/-- Function `int mpbe_earaio_init(void)`.  `reg_ret` is what `misc_register` returns and
`reg_minor` the minor it stores on success; `uevt_ret` is what
`kobject_uevent(.., KOBJ_ADD)` returns. -/
def mpbe_earaio_init (reg_ret reg_minor uevt_ret : Int) (s : Machine) : Int × Machine :=
  let s0 : Machine := { s with earaio_obj_minor := MISC_DYNAMIC_MINOR }
  let s1 : Machine :=
    { s0 with
      earaio_obj_minor := if reg_ret = 0 then reg_minor else s0.earaio_obj_minor,
      trace := s0.trace ++ [Call.misc_register reg_ret] }
  if reg_ret ≠ 0 then
    (reg_ret, { s1 with earaio_obj_minor := 0 })
  else
    let s2 : Machine := { s1 with trace := s1.trace ++ [Call.kobject_uevent uevt_ret] }
    if uevt_ret ≠ 0 then
      (uevt_ret, { s2 with earaio_obj_minor := 0, trace := s2.trace ++ [Call.misc_deregister] })
    else
      (uevt_ret, s2)

/-! ## Reachable states -/

/-- Line 218, `earaio_ctrl.enabled = false;`: the second statement of the `'0'`
branch of `mpbe_earaio_ctrl_sub_write`.  The first, line 217, is
`mpbe_earaio_boost(false)`; no lock is held across the two. -/
def ctrl_disable_store (s : Machine) : Machine :=
  { s with earaio_ctrl := { s.earaio_ctrl with enabled := false } }

/-- The executions of the file: `Run s0 s` holds when `s` is reached from `s0`
by running entry points, in any order and with any arguments.  Every entry
point may run at any time; nothing in `mpbe_earaio_init` prevents it from
running again.  Each constructor but the last runs one function from start
to end.  The last one is a `'0'` control write during which other entry
points run between line 217 and line 218. -/
inductive Run : Machine → Machine → Prop where
  | start (s : Machine) : Run s s
  | init (reg_ret reg_minor uevt_ret : Int) {s0 s : Machine} :
      Run s0 s → Run s0 (mpbe_earaio_init reg_ret reg_minor uevt_ret s).2
  | init_mictx (vops_earaio_enabled : Bool) (storage_type now : Nat) {s0 s : Machine} :
      Run s0 s → Run s0 (mpbe_earaio_init_mictx vops_earaio_enabled storage_type now s)
  | update_pwd (bits : Nat) (write : Bool) (size : Nat) {s0 s : Machine} :
      Run s0 s → Run s0 (mpbe_earaio_update_pwd bits write size s)
  | boost (b : Bool) (now : Nat) {s0 s : Machine} :
      Run s0 s → Run s0 (mpbe_earaio_boost b now s)
  | check_pwd (now now_boost : Nat) {s0 s : Machine} :
      Run s0 s → Run s0 (mpbe_earaio_check_pwd now now_boost s)
  | ctrl_sub_write (ubuf : List Nat) (count now : Nat) {s0 s : Machine} :
      Run s0 s → Run s0 (mpbe_earaio_ctrl_sub_write ubuf count now s).2
  | uevt_worker (rets : List Int) {s0 s s' : Machine} :
      Run s0 s → mpbe_earaio_uevt_worker rets s = some s' → Run s0 s'
  | ctrl_sub_write_interleaved (now : Nat) {s0 s s' : Machine} :
      Run s0 s → Run (mpbe_earaio_boost false now s) s' → Run s0 (ctrl_disable_store s')

/-- States the file can be in: those reached from zeroed statics. -/
def Reachable (s : Machine) : Prop := Run Machine.boot s

/-! ## Scenario states -/

/-- A fresh, enabled controller: `mpbe_earaio_init` succeeded with minor `m`,
then `mpbe_earaio_init_mictx` ran at time `t0` for storage type `st`. -/
def fresh (m : Int) (st t0 : Nat) : Machine :=
  mpbe_earaio_init_mictx true st t0 (mpbe_earaio_init 0 m 0 Machine.boot).2

/-- Scenario A before the check: 40 MiB of writes accounted on a fresh
controller with 32-bit counters. -/
def scenario_A_state : Machine :=
  mpbe_earaio_update_pwd 32 true (40 * 1024 * 1024) (fresh 57 2 1000)

/-- Scenario B before the request: the boosted controller that scenario A
ends in. -/
def scenario_B_state : Machine :=
  mpbe_earaio_check_pwd (1000 + 101000000) (1000 + 101000050) scenario_A_state

/-- Scenario C before the check: 4 MiB of reads, below the threshold. -/
def scenario_C_state : Machine :=
  mpbe_earaio_update_pwd 32 false (4 * 1024 * 1024) (fresh 57 2 1000)

/-- The boosted controller of scenario B after another 40 MiB of writes. -/
def boosted_busy : Machine :=
  mpbe_earaio_update_pwd 32 true (40 * 1024 * 1024) scenario_B_state

/-- A fresh controller after the control write `"0"` at time 2000. -/
def disabled_idle : Machine :=
  (mpbe_earaio_ctrl_sub_write [('0').toNat] 1 2000 (fresh 57 2 1000)).2

/-- The disabled controller after 40 MiB of writes were accounted. -/
def disabled_busy : Machine :=
  mpbe_earaio_update_pwd 32 true (40 * 1024 * 1024) disabled_idle

/-- The boosted controller of scenario B after `mpbe_earaio_init` ran a second
time and its `misc_register` returned -16. -/
def reinit_failed : Machine :=
  (mpbe_earaio_init (-16) 0 0 scenario_B_state).2

/-- A `'0'` control write on the controller of scenario A during which
`mpbe_earaio_check_pwd` runs between line 217 and line 218. -/
def raced_disable : Machine :=
  ctrl_disable_store
    (mpbe_earaio_check_pwd (1000 + 101000000) (1000 + 101000050)
      (mpbe_earaio_boost false (1000 + 100999000) scenario_A_state))

/-- A controller whose write counter of width `bits` holds its largest value. -/
def saturated (bits : Nat) : Machine :=
  { (fresh 57 2 1000) with
    earaio_ctrl := { (fresh 57 2 1000).earaio_ctrl with pwd_top_w_pages := 2 ^ bits - 1 } }

/-- A controller whose 32-bit write counter holds its largest value. -/
def full_counter : Machine := saturated 32

/-! ## The outcomes of `mpbe_earaio_boost` -/

theorem boost_guarded (b : Bool) (now : Nat) (s : Machine)
    (h : s.earaio_ctrl.enabled = false ∨ s.earaio_obj_minor = 0) :
    mpbe_earaio_boost b now s = s := by
  unfold mpbe_earaio_boost
  rcases h with h | h <;> simp [h]

theorem boost_on_trigger (now : Nat) (s : Machine)
    (he : s.earaio_ctrl.enabled = true) (hm : s.earaio_obj_minor ≠ 0)
    (hb : s.earaio_ctrl.boosted = false)
    (ht : EARAIO_UEVT_THRESHOLD_PAGES ≤ s.earaio_ctrl.pwd_top_r_pages ∨
      EARAIO_UEVT_THRESHOLD_PAGES ≤ s.earaio_ctrl.pwd_top_w_pages) :
    mpbe_earaio_boost true now s =
      { s with
        earaio_ctrl :=
          { s.earaio_ctrl with
            boosted := true, uevt_req := true, pwd_begin := now,
            pwd_top_r_pages := 0, pwd_top_w_pages := 0 },
        trace := s.trace ++ [Call.queue_work] } := by
  simp [mpbe_earaio_boost, __mpbe_earaio_boost, mpbe_earaio_send_uevt, he, hm, hb, ht]

theorem boost_on_declined (now : Nat) (s : Machine)
    (he : s.earaio_ctrl.enabled = true) (hm : s.earaio_obj_minor ≠ 0)
    (hb : s.earaio_ctrl.boosted = false)
    (hr : s.earaio_ctrl.pwd_top_r_pages < EARAIO_UEVT_THRESHOLD_PAGES)
    (hw : s.earaio_ctrl.pwd_top_w_pages < EARAIO_UEVT_THRESHOLD_PAGES) :
    mpbe_earaio_boost true now s =
      { s with
        earaio_ctrl :=
          { s.earaio_ctrl with
            pwd_begin := now, pwd_top_r_pages := 0, pwd_top_w_pages := 0 },
        trace := s.trace ++ [Call.mpbe_mictx_check_window s.earaio_ctrl.mictx_storage] } := by
  have h : ¬ (EARAIO_UEVT_THRESHOLD_PAGES ≤ s.earaio_ctrl.pwd_top_r_pages ∨
      EARAIO_UEVT_THRESHOLD_PAGES ≤ s.earaio_ctrl.pwd_top_w_pages) := by omega
  simp [mpbe_earaio_boost, __mpbe_earaio_boost, mpbe_earaio_send_uevt, he, hm, hb, h]

theorem boost_on_already (now : Nat) (s : Machine)
    (he : s.earaio_ctrl.enabled = true) (hm : s.earaio_obj_minor ≠ 0)
    (hb : s.earaio_ctrl.boosted = true) :
    mpbe_earaio_boost true now s =
      { s with
        earaio_ctrl :=
          { s.earaio_ctrl with
            pwd_begin := now, pwd_top_r_pages := 0, pwd_top_w_pages := 0 } } := by
  simp [mpbe_earaio_boost, __mpbe_earaio_boost, mpbe_earaio_send_uevt, he, hm, hb]

theorem boost_off_changed (now : Nat) (s : Machine)
    (he : s.earaio_ctrl.enabled = true) (hm : s.earaio_obj_minor ≠ 0)
    (hb : s.earaio_ctrl.boosted = true) :
    mpbe_earaio_boost false now s =
      { s with
        earaio_ctrl :=
          { s.earaio_ctrl with
            boosted := false, uevt_req := false, pwd_begin := now,
            pwd_top_r_pages := 0, pwd_top_w_pages := 0 },
        trace := s.trace ++
          [Call.queue_work, Call.mpbe_mictx_check_window s.earaio_ctrl.mictx_storage] } := by
  simp [mpbe_earaio_boost, __mpbe_earaio_boost, mpbe_earaio_send_uevt, he, hm, hb]

theorem boost_off_unchanged (now : Nat) (s : Machine)
    (hb : s.earaio_ctrl.boosted = false) :
    mpbe_earaio_boost false now s = s := by
  simp [mpbe_earaio_boost, __mpbe_earaio_boost, mpbe_earaio_send_uevt, hb]

theorem guard_open (s : Machine)
    (hg : ¬ (s.earaio_ctrl.enabled = false ∨ s.earaio_obj_minor = 0)) :
    s.earaio_ctrl.enabled = true ∧ s.earaio_obj_minor ≠ 0 := by
  constructor
  · cases hen : s.earaio_ctrl.enabled
    · exact absurd (Or.inl hen) hg
    · rfl
  · exact fun h => hg (Or.inr h)

theorem threshold_pos : 0 < EARAIO_UEVT_THRESHOLD_PAGES := by decide

theorem boost_resets_window (b : Bool) (now : Nat) (s : Machine)
    (he : s.earaio_ctrl.enabled = true) (hm : s.earaio_obj_minor ≠ 0)
    (hcase : b = true ∨ s.earaio_ctrl.boosted = true) :
    (mpbe_earaio_boost b now s).earaio_ctrl.pwd_top_r_pages = 0 ∧
    (mpbe_earaio_boost b now s).earaio_ctrl.pwd_top_w_pages = 0 ∧
    (mpbe_earaio_boost b now s).earaio_ctrl.pwd_begin = now := by
  cases b with
  | true =>
    cases hb : s.earaio_ctrl.boosted with
    | true =>
      rw [boost_on_already now s he hm hb]
      exact ⟨rfl, rfl, rfl⟩
    | false =>
      by_cases ht : EARAIO_UEVT_THRESHOLD_PAGES ≤ s.earaio_ctrl.pwd_top_r_pages ∨
          EARAIO_UEVT_THRESHOLD_PAGES ≤ s.earaio_ctrl.pwd_top_w_pages
      · rw [boost_on_trigger now s he hm hb ht]
        exact ⟨rfl, rfl, rfl⟩
      · rw [boost_on_declined now s he hm hb (by omega) (by omega)]
        exact ⟨rfl, rfl, rfl⟩
  | false =>
    have hb : s.earaio_ctrl.boosted = true := by
      rcases hcase with h | h
      · exact absurd h (by decide)
      · exact h
    rw [boost_off_changed now s he hm hb]
    exact ⟨rfl, rfl, rfl⟩

/-! ## Counting calls in the trace -/

theorem queued_append_queue_work (tr : List Call) :
    queued (tr ++ [Call.queue_work]) = queued tr + 1 := by
  simp [queued]

theorem queued_append_check_window (tr : List Call) (st : Nat) :
    queued (tr ++ [Call.mpbe_mictx_check_window st]) = queued tr := by
  simp [queued]

theorem window_checks_append_queue_work (tr : List Call) :
    window_checks (tr ++ [Call.queue_work]) = window_checks tr := by
  simp [window_checks, List.filter_append]

theorem window_checks_append_check_window (tr : List Call) (st : Nat) :
    window_checks (tr ++ [Call.mpbe_mictx_check_window st]) = window_checks tr + 1 := by
  simp [window_checks, List.filter_append]

theorem boost_on_again (t2 : Nat) (s1 : Machine)
    (h : s1.earaio_ctrl.boosted = true ∨
      (s1.earaio_ctrl.pwd_top_r_pages = 0 ∧ s1.earaio_ctrl.pwd_top_w_pages = 0)) :
    (mpbe_earaio_boost true t2 s1).earaio_ctrl.boosted = s1.earaio_ctrl.boosted ∧
    (mpbe_earaio_boost true t2 s1).earaio_ctrl.uevt_req = s1.earaio_ctrl.uevt_req ∧
    queued (mpbe_earaio_boost true t2 s1).trace = queued s1.trace := by
  by_cases hg : s1.earaio_ctrl.enabled = false ∨ s1.earaio_obj_minor = 0
  · rw [boost_guarded true t2 s1 hg]
    exact ⟨rfl, rfl, rfl⟩
  · obtain ⟨he, hm⟩ := guard_open s1 hg
    cases hb : s1.earaio_ctrl.boosted with
    | true =>
      rw [boost_on_already t2 s1 he hm hb]
      exact ⟨hb, rfl, rfl⟩
    | false =>
      rw [hb] at h
      have hz : s1.earaio_ctrl.pwd_top_r_pages = 0 ∧ s1.earaio_ctrl.pwd_top_w_pages = 0 := by
        rcases h with h | h
        · exact absurd h (by decide)
        · exact h
      have hr : s1.earaio_ctrl.pwd_top_r_pages < EARAIO_UEVT_THRESHOLD_PAGES := by
        rw [hz.1]; exact threshold_pos
      have hw : s1.earaio_ctrl.pwd_top_w_pages < EARAIO_UEVT_THRESHOLD_PAGES := by
        rw [hz.2]; exact threshold_pos
      rw [boost_on_declined t2 s1 he hm hb hr hw]
      exact ⟨hb, rfl, queued_append_check_window _ _⟩

theorem boost_on_first (t1 : Nat) (s : Machine)
    (he : s.earaio_ctrl.enabled = true) (hm : s.earaio_obj_minor ≠ 0) :
    ((mpbe_earaio_boost true t1 s).earaio_ctrl.boosted = true ∨
      ((mpbe_earaio_boost true t1 s).earaio_ctrl.pwd_top_r_pages = 0 ∧
       (mpbe_earaio_boost true t1 s).earaio_ctrl.pwd_top_w_pages = 0)) ∧
    queued (mpbe_earaio_boost true t1 s).trace ≤ queued s.trace + 1 := by
  cases hb : s.earaio_ctrl.boosted with
  | true =>
    rw [boost_on_already t1 s he hm hb]
    exact ⟨Or.inl hb, Nat.le_succ _⟩
  | false =>
    by_cases ht : EARAIO_UEVT_THRESHOLD_PAGES ≤ s.earaio_ctrl.pwd_top_r_pages ∨
        EARAIO_UEVT_THRESHOLD_PAGES ≤ s.earaio_ctrl.pwd_top_w_pages
    · rw [boost_on_trigger t1 s he hm hb ht]
      exact ⟨Or.inl rfl, le_of_eq (queued_append_queue_work s.trace)⟩
    · rw [boost_on_declined t1 s he hm hb (by omega) (by omega)]
      exact ⟨Or.inr ⟨rfl, rfl⟩,
        le_trans (le_of_eq (queued_append_check_window s.trace _)) (Nat.le_succ _)⟩

theorem boost_off_first (t1 : Nat) (s : Machine)
    (he : s.earaio_ctrl.enabled = true) (hm : s.earaio_obj_minor ≠ 0) :
    (mpbe_earaio_boost false t1 s).earaio_ctrl.boosted = false ∧
    queued (mpbe_earaio_boost false t1 s).trace ≤ queued s.trace + 1 := by
  cases hb : s.earaio_ctrl.boosted with
  | true =>
    rw [boost_off_changed t1 s he hm hb]
    refine ⟨rfl, ?_⟩
    show queued (s.trace ++ [Call.queue_work, Call.mpbe_mictx_check_window _]) ≤ _
    simp [queued]
  | false =>
    rw [boost_off_unchanged t1 s hb]
    exact ⟨hb, Nat.le_succ _⟩

/-! ## The delivery loop -/

theorem event_string_length (boost : Bool) : (event_string boost).length = 7 := by
  cases boost <;> rfl

theorem worker_quit (rets : List Int) (s : Machine)
    (h : s.earaio_ctrl.uevt_state = s.earaio_ctrl.uevt_req) :
    mpbe_earaio_uevt_worker rets s = some s := by
  cases rets <;> simp [mpbe_earaio_uevt_worker, h]

theorem worker_failed_pass (r : Int) (rest : List Int) (s : Machine) (hr : r ≠ 0)
    (hne : s.earaio_ctrl.uevt_state ≠ s.earaio_ctrl.uevt_req) :
    mpbe_earaio_uevt_worker (r :: rest) s =
      mpbe_earaio_uevt_worker rest
        { s with
          trace := s.trace ++
            [Call.kobject_uevent_env (event_string s.earaio_ctrl.uevt_req) r] } := by
  rw [mpbe_earaio_uevt_worker]
  simp [hne, hr, event_string_length]

theorem worker_good_pass (rest : List Int) (s : Machine)
    (hne : s.earaio_ctrl.uevt_state ≠ s.earaio_ctrl.uevt_req) :
    mpbe_earaio_uevt_worker (0 :: rest) s =
      some
        { s with
          earaio_ctrl := { s.earaio_ctrl with uevt_state := s.earaio_ctrl.uevt_req },
          trace := s.trace ++
            [Call.kobject_uevent_env (event_string s.earaio_ctrl.uevt_req) 0] } := by
  rw [mpbe_earaio_uevt_worker]
  simp [hne, event_string_length]

/-- What a finished run of the worker changed: only `uevt_state`, which now
equals `uevt_req`, and the trace. -/
theorem worker_result (rets : List Int) (s s' : Machine)
    (h : mpbe_earaio_uevt_worker rets s = some s') :
    s'.earaio_ctrl = { s.earaio_ctrl with uevt_state := s.earaio_ctrl.uevt_req } ∧
    s'.earaio_obj_minor = s.earaio_obj_minor := by
  induction rets generalizing s with
  | nil =>
    by_cases he : s.earaio_ctrl.uevt_state = s.earaio_ctrl.uevt_req
    · rw [worker_quit [] s he] at h
      cases h
      exact ⟨by rw [← he], rfl⟩
    · simp [mpbe_earaio_uevt_worker, he, event_string_length] at h
  | cons r rest ih =>
    by_cases he : s.earaio_ctrl.uevt_state = s.earaio_ctrl.uevt_req
    · rw [worker_quit _ s he] at h
      cases h
      exact ⟨by rw [← he], rfl⟩
    · by_cases hr : r = 0
      · subst hr
        rw [worker_good_pass rest s he] at h
        cases h
        exact ⟨rfl, rfl⟩
      · rw [worker_failed_pass r rest s hr he] at h
        have h2 := ih _ h
        exact h2

theorem worker_terminates (rets : List Int) (s : Machine) (hok : (0 : Int) ∈ rets) :
    ∃ s', mpbe_earaio_uevt_worker rets s = some s' := by
  induction rets generalizing s with
  | nil => simp at hok
  | cons r rest ih =>
    by_cases he : s.earaio_ctrl.uevt_state = s.earaio_ctrl.uevt_req
    · exact ⟨s, worker_quit _ s he⟩
    · by_cases hr : r = 0
      · subst hr
        exact ⟨_, worker_good_pass rest s he⟩
      · rw [worker_failed_pass r rest s hr he]
        apply ih
        rcases List.mem_cons.mp hok with h | h
        · exact absurd h.symm hr
        · exact h

theorem send_uevt_sequence (reqs : List Bool) (s : Machine) :
    (reqs.foldl (fun m b => (mpbe_earaio_send_uevt b m).2) s).earaio_ctrl.uevt_req =
      reqs.getLast?.getD s.earaio_ctrl.uevt_req := by
  induction reqs generalizing s with
  | nil => rfl
  | cons b bs ih =>
    rw [List.foldl_cons, ih]
    cases bs with
    | nil => rfl
    | cons c cs =>
      rw [List.getLast?_cons_cons, List.getLast?_eq_getLast (c :: cs) (List.cons_ne_nil c cs)]
      rfl

/-! ## The control write and initialisation -/

theorem ctrl_sub_write_char (c : Nat) (rest : List Nat) (count now : Nat) (s : Machine)
    (hc : 0 < count) :
    mpbe_earaio_ctrl_sub_write (c :: rest) count now s =
      if c = ('1').toNat then
        (1, { s with earaio_ctrl := { s.earaio_ctrl with enabled := true } })
      else if c = ('0').toNat then
        (1, { (mpbe_earaio_boost false now s) with
              earaio_ctrl :=
                { (mpbe_earaio_boost false now s).earaio_ctrl with enabled := false } })
      else (-1, s) := by
  have h0 : count ≠ 0 := by omega
  unfold mpbe_earaio_ctrl_sub_write copy_from_user MICTX_PROC_CMD_BUF_SIZE
  by_cases h1 : count > 1
  · simp [h0, h1]
  · have h2 : count = 1 := by omega
    subst h2
    simp

theorem ctrl_sub_write_fault (count now : Nat) (s : Machine) :
    mpbe_earaio_ctrl_sub_write [] count now s = (-1, s) := by
  unfold mpbe_earaio_ctrl_sub_write copy_from_user MICTX_PROC_CMD_BUF_SIZE
  by_cases h0 : count = 0
  · simp [h0]
  · by_cases h1 : count > 1
    · simp [h0, h1]
    · have h2 : count = 1 := by omega
      subst h2
      simp

theorem ctrl_sub_write_empty (ubuf : List Nat) (now : Nat) (s : Machine) :
    mpbe_earaio_ctrl_sub_write ubuf 0 now s = (-1, s) := by
  simp [mpbe_earaio_ctrl_sub_write]

theorem ctrl_sub_write_cases (ubuf : List Nat) (count now : Nat) (s : Machine) :
    mpbe_earaio_ctrl_sub_write ubuf count now s = (-1, s) ∨
    mpbe_earaio_ctrl_sub_write ubuf count now s =
      (1, { s with earaio_ctrl := { s.earaio_ctrl with enabled := true } }) ∨
    mpbe_earaio_ctrl_sub_write ubuf count now s =
      (1, { (mpbe_earaio_boost false now s) with
            earaio_ctrl :=
              { (mpbe_earaio_boost false now s).earaio_ctrl with enabled := false } }) := by
  cases ubuf with
  | nil => exact Or.inl (ctrl_sub_write_fault count now s)
  | cons c rest =>
    by_cases h0 : count = 0
    · subst h0
      exact Or.inl (ctrl_sub_write_empty _ now s)
    · rw [ctrl_sub_write_char c rest count now s (by omega)]
      by_cases h1 : c = ('1').toNat
      · rw [if_pos h1]
        exact Or.inr (Or.inl rfl)
      · rw [if_neg h1]
        by_cases h2 : c = ('0').toNat
        · rw [if_pos h2]
          exact Or.inr (Or.inr rfl)
        · rw [if_neg h2]
          exact Or.inl rfl

theorem check_pwd_cases (now now_boost : Nat) (s : Machine) :
    mpbe_earaio_check_pwd now now_boost s = mpbe_earaio_boost true now_boost s ∨
    mpbe_earaio_check_pwd now now_boost s = s := by
  unfold mpbe_earaio_check_pwd
  split
  · exact Or.inl rfl
  · exact Or.inr rfl

theorem init_keeps_ctrl (reg_ret reg_minor uevt_ret : Int) (s : Machine) :
    (mpbe_earaio_init reg_ret reg_minor uevt_ret s).2.earaio_ctrl = s.earaio_ctrl := by
  unfold mpbe_earaio_init
  by_cases h1 : reg_ret = 0
  · by_cases h2 : uevt_ret = 0 <;> simp [h1, h2]
  · simp [h1]

/-! ## Reachable scenario states -/

theorem reachable_fresh (m : Int) (st t0 : Nat) : Reachable (fresh m st t0) :=
  Run.init_mictx true st t0 (Run.init 0 m 0 (Run.start Machine.boot))

theorem reachable_disabled_idle : Reachable disabled_idle :=
  Run.ctrl_sub_write _ 1 2000 (reachable_fresh 57 2 1000)

theorem reachable_disabled_busy : Reachable disabled_busy :=
  Run.update_pwd 32 true _ reachable_disabled_idle

theorem reachable_scenario_A : Reachable scenario_A_state :=
  Run.update_pwd 32 true _ (reachable_fresh 57 2 1000)

theorem reachable_scenario_B : Reachable scenario_B_state :=
  Run.check_pwd _ _ reachable_scenario_A

theorem reachable_reinit_failed : Reachable reinit_failed :=
  Run.init (-16) 0 0 reachable_scenario_B

theorem reachable_raced_disable : Reachable raced_disable :=
  Run.ctrl_sub_write_interleaved (1000 + 100999000) reachable_scenario_A
    (Run.check_pwd (1000 + 101000000) (1000 + 101000050) (Run.start _))

/-- Run from start to end, the `'0'` control write is line 217 followed by
line 218. -/
theorem ctrl_sub_write_zero_split (rest : List Nat) (count now : Nat) (s : Machine)
    (hc : 0 < count) :
    mpbe_earaio_ctrl_sub_write (('0').toNat :: rest) count now s =
      (1, ctrl_disable_store (mpbe_earaio_boost false now s)) := by
  rw [ctrl_sub_write_char _ rest count now s hc, if_neg (by decide), if_pos rfl]
  rfl

/-- What the two commands do when run from start to end.  The `'1'` write only
sets `enabled`.  The `'0'` write ends disabled, and not boosted provided that
a boosted state passes the first test of `mpbe_earaio_boost`. -/
theorem ctrl_sub_write_commands (s : Machine) (rest : List Nat) (count now : Nat)
    (hc : 0 < count)
    (hopen : s.earaio_ctrl.boosted = true →
      s.earaio_ctrl.enabled = true ∧ s.earaio_obj_minor ≠ 0) :
    (mpbe_earaio_ctrl_sub_write (('0').toNat :: rest) count now s).2.earaio_ctrl.enabled
      = false ∧
    (mpbe_earaio_ctrl_sub_write (('0').toNat :: rest) count now s).2.earaio_ctrl.boosted
      = false ∧
    mpbe_earaio_ctrl_sub_write (('1').toNat :: rest) count now s =
      (1, { s with earaio_ctrl := { s.earaio_ctrl with enabled := true } }) := by
  have hoff : (mpbe_earaio_boost false now s).earaio_ctrl.boosted = false := by
    cases hb : s.earaio_ctrl.boosted with
    | true =>
      obtain ⟨he, hm⟩ := hopen hb
      rw [boost_off_changed now s he hm hb]
    | false =>
      rw [boost_off_unchanged now s hb]
      exact hb
  rw [ctrl_sub_write_zero_split rest count now s hc, ctrl_sub_write_char _ rest count now s hc]
  refine ⟨rfl, hoff, ?_⟩
  rw [if_pos rfl]

/-! ## Effect of each entry point on the window -/

theorem boost_window (b : Bool) (now : Nat) (m : Machine) :
    window (mpbe_earaio_boost b now m) = window m ∨
    window (mpbe_earaio_boost b now m) = (0, 0, now) := by
  by_cases hg : m.earaio_ctrl.enabled = false ∨ m.earaio_obj_minor = 0
  · rw [boost_guarded b now m hg]
    exact Or.inl rfl
  · obtain ⟨he, hm⟩ := guard_open m hg
    by_cases hcase : b = true ∨ m.earaio_ctrl.boosted = true
    · obtain ⟨h1, h2, h3⟩ := boost_resets_window b now m he hm hcase
      right
      simp [window, h1, h2, h3]
    · have hb : b = false := by
        cases b
        · rfl
        · exact absurd (Or.inl rfl) hcase
      have hbo : m.earaio_ctrl.boosted = false := by
        cases h : m.earaio_ctrl.boosted
        · rfl
        · exact absurd (Or.inr h) hcase
      subst hb
      rw [boost_off_unchanged now m hbo]
      exact Or.inl rfl

theorem check_pwd_window (now now_boost : Nat) (m : Machine) :
    window (mpbe_earaio_check_pwd now now_boost m) = window m ∨
    window (mpbe_earaio_check_pwd now now_boost m) = (0, 0, now_boost) := by
  rcases check_pwd_cases now now_boost m with h | h
  · rw [h]
    exact boost_window true now_boost m
  · rw [h]
    exact Or.inl rfl

theorem ctrl_sub_write_window (ubuf : List Nat) (count now : Nat) (m : Machine) :
    window (mpbe_earaio_ctrl_sub_write ubuf count now m).2 = window m ∨
    window (mpbe_earaio_ctrl_sub_write ubuf count now m).2 = (0, 0, now) := by
  rcases ctrl_sub_write_cases ubuf count now m with h | h | h
  · rw [h]
    exact Or.inl rfl
  · rw [h]
    exact Or.inl rfl
  · rw [h]
    exact boost_window false now m

theorem init_mictx_window (v : Bool) (st now : Nat) (m : Machine) :
    window (mpbe_earaio_init_mictx v st now m) = window m ∨
    window (mpbe_earaio_init_mictx v st now m) = (0, 0, now) := by
  unfold mpbe_earaio_init_mictx
  cases v <;> cases he : m.earaio_ctrl.enabled <;> simp [he, window]

theorem worker_window (rets : List Int) (m m' : Machine)
    (h : mpbe_earaio_uevt_worker rets m = some m') : window m' = window m := by
  have hc := (worker_result rets m m' h).1
  simp [window, hc]

/-! ## Wrap-around of a counter -/

theorem pages_lt (size : Nat) : (size % 2 ^ 32) >>> 12 < 2 ^ 20 := by
  rw [Nat.shiftRight_eq_div_pow]
  have h : size % 2 ^ 32 < 2 ^ 32 := Nat.mod_lt _ (by decide)
  norm_num at h ⊢
  omega

theorem counter_wrap (bits c p : Nat) (hc : c < 2 ^ bits) (hp : p < 2 ^ bits)
    (hwrap : 2 ^ bits ≤ c + p) :
    (c + p) % 2 ^ bits = c + p - 2 ^ bits ∧ (c + p) % 2 ^ bits < c := by
  have h1 : (c + p) % 2 ^ bits = c + p - 2 ^ bits := by
    rw [Nat.mod_eq_sub_mod hwrap, Nat.mod_eq_of_lt (by omega)]
  rw [h1]
  exact ⟨rfl, by omega⟩

theorem one_page : (4096 % 2 ^ 32) >>> 12 = 1 := by decide

theorem saturated_wraps (k : Nat) :
    (mpbe_earaio_update_pwd (k + 1) true 4096 (saturated (k + 1))).earaio_ctrl.pwd_top_w_pages
      = 0 := by
  have hpos : 1 ≤ 2 ^ (k + 1) := Nat.one_le_two_pow
  show (2 ^ (k + 1) - 1 + (4096 % 2 ^ 32) >>> 12) % 2 ^ (k + 1) = 0
  rw [one_page, Nat.sub_add_cancel hpos, Nat.mod_self]

theorem saturated_pos (k : Nat) :
    0 < (saturated (k + 1)).earaio_ctrl.pwd_top_w_pages := by
  have h2 : 2 ≤ 2 ^ (k + 1) := by
    calc 2 = 2 ^ 1 := rfl
      _ ≤ 2 ^ (k + 1) := Nat.pow_le_pow_right (by decide) (Nat.succ_le_succ (Nat.zero_le k))
  show 0 < 2 ^ (k + 1) - 1
  omega

/-! ## C1: threshold trigger -/

/-- C1, as stated, fails on a disabled controller and on a boosted one.
`disabled_busy` is reachable (initialise, write `"0"`, account 40 MiB of
writes) and its write counter is 10240, above the threshold of 8192;
`mpbe_earaio_boost(true)` returns at its `!earaio_ctrl.enabled` test, so
`boosted` stays false, `uevt_req` stays false and `queue_work` is not called.
`boosted_busy` is enabled, already boosted, with the same counter; there
`__mpbe_earaio_boost` returns 0 at its first test and `queue_work` is not
called either. -/
theorem C1_disabled_controller_is_not_boosted :
    (Reachable disabled_busy ∧
      EARAIO_UEVT_THRESHOLD_PAGES ≤ disabled_busy.earaio_ctrl.pwd_top_w_pages ∧
      (mpbe_earaio_boost true 5000 disabled_busy).earaio_ctrl.boosted = false ∧
      (mpbe_earaio_boost true 5000 disabled_busy).earaio_ctrl.uevt_req = false ∧
      (mpbe_earaio_boost true 5000 disabled_busy).trace = disabled_busy.trace) ∧
    (EARAIO_UEVT_THRESHOLD_PAGES ≤ boosted_busy.earaio_ctrl.pwd_top_w_pages ∧
      boosted_busy.earaio_ctrl.enabled = true ∧
      boosted_busy.earaio_ctrl.boosted = true ∧
      (mpbe_earaio_boost true 300000000 boosted_busy).trace = boosted_busy.trace) :=
  ⟨⟨reachable_disabled_busy, by decide, by decide, by decide, by decide⟩,
   by decide, by decide, by decide, by decide⟩

/-- C1, amended: in every state that is enabled and has the misc device
registered (`earaio_obj.minor ≠ 0`), with the read or the write counter at or
above `EARAIO_UEVT_THRESHOLD_PAGES`, `mpbe_earaio_boost(true)` ends with
`boosted = true` and the window reset to the clock value read.  If the state
was not boosted before, the call sets `uevt_req` to true and calls
`queue_work` once and nothing else; if it was already boosted, `uevt_req` is
left alone and no call is made. -/
theorem C1_threshold_trigger (now : Nat) (s : Machine)
    (he : s.earaio_ctrl.enabled = true) (hm : s.earaio_obj_minor ≠ 0)
    (ht : EARAIO_UEVT_THRESHOLD_PAGES ≤ s.earaio_ctrl.pwd_top_r_pages ∨
      EARAIO_UEVT_THRESHOLD_PAGES ≤ s.earaio_ctrl.pwd_top_w_pages) :
    (mpbe_earaio_boost true now s).earaio_ctrl.boosted = true ∧
    (mpbe_earaio_boost true now s).earaio_ctrl.uevt_req =
      (if s.earaio_ctrl.boosted = true then s.earaio_ctrl.uevt_req else true) ∧
    (mpbe_earaio_boost true now s).trace =
      s.trace ++ (if s.earaio_ctrl.boosted = true then [] else [Call.queue_work]) ∧
    (mpbe_earaio_boost true now s).earaio_ctrl.pwd_top_r_pages = 0 ∧
    (mpbe_earaio_boost true now s).earaio_ctrl.pwd_top_w_pages = 0 ∧
    (mpbe_earaio_boost true now s).earaio_ctrl.pwd_begin = now := by
  cases hb : s.earaio_ctrl.boosted with
  | true =>
    rw [boost_on_already now s he hm hb]
    exact ⟨hb, by simp, by simp, rfl, rfl, rfl⟩
  | false =>
    rw [boost_on_trigger now s he hm hb ht]
    exact ⟨rfl, by simp, by simp, rfl, rfl, rfl⟩

/-- C1, scenario A: on a fresh enabled controller (window opened at 1000 ns)
40 MiB of writes give 10240 pages; `mpbe_earaio_check_pwd` 101 ms later calls
`mpbe_earaio_boost(true)`, which boosts, requests the `true` announcement,
queues the work once and empties the window; the worker then sends `boost=1`
once. -/
theorem C1_scenario_A :
    scenario_A_state.earaio_ctrl.pwd_top_w_pages = 10240 ∧
    scenario_A_state.earaio_ctrl.boosted = false ∧
    mpbe_earaio_check_pwd (1000 + 101000000) (1000 + 101000050) scenario_A_state =
      mpbe_earaio_boost true (1000 + 101000050) scenario_A_state ∧
    ((mpbe_earaio_boost true (1000 + 101000050) scenario_A_state).earaio_ctrl.boosted = true ∧
     (mpbe_earaio_boost true (1000 + 101000050) scenario_A_state).earaio_ctrl.uevt_req =
       (if scenario_A_state.earaio_ctrl.boosted = true
        then scenario_A_state.earaio_ctrl.uevt_req else true) ∧
     (mpbe_earaio_boost true (1000 + 101000050) scenario_A_state).trace =
       scenario_A_state.trace ++
         (if scenario_A_state.earaio_ctrl.boosted = true then [] else [Call.queue_work]) ∧
     (mpbe_earaio_boost true (1000 + 101000050) scenario_A_state).earaio_ctrl.pwd_top_r_pages = 0 ∧
     (mpbe_earaio_boost true (1000 + 101000050) scenario_A_state).earaio_ctrl.pwd_top_w_pages = 0 ∧
     (mpbe_earaio_boost true (1000 + 101000050) scenario_A_state).earaio_ctrl.pwd_begin =
       1000 + 101000050) ∧
    (mpbe_earaio_boost true (1000 + 101000050) scenario_A_state).trace =
      scenario_A_state.trace ++ [Call.queue_work] ∧
    (mpbe_earaio_uevt_worker [0]
        (mpbe_earaio_boost true (1000 + 101000050) scenario_A_state)).map (fun s => s.trace) =
      some (scenario_A_state.trace ++
        [Call.queue_work, Call.kobject_uevent_env (event_string true) 0]) :=
  ⟨by decide, by decide, by decide,
   C1_threshold_trigger (1000 + 101000050) scenario_A_state (by decide) (by decide) (by decide),
   by decide, by decide⟩

/-! ## C2: threshold monotonicity -/

/-- C2: in every state with `boosted = false` and both counters below
`EARAIO_UEVT_THRESHOLD_PAGES`, `mpbe_earaio_boost(true)` leaves `boosted`
false, leaves `uevt_req` as it was and makes no `queue_work` call, and
`__mpbe_earaio_boost(true)` returns 2 without touching the state. -/
theorem C2_threshold_monotonicity (now : Nat) (s : Machine)
    (hb : s.earaio_ctrl.boosted = false)
    (hr : s.earaio_ctrl.pwd_top_r_pages < EARAIO_UEVT_THRESHOLD_PAGES)
    (hw : s.earaio_ctrl.pwd_top_w_pages < EARAIO_UEVT_THRESHOLD_PAGES) :
    (mpbe_earaio_boost true now s).earaio_ctrl.boosted = false ∧
    (mpbe_earaio_boost true now s).earaio_ctrl.uevt_req = s.earaio_ctrl.uevt_req ∧
    queued (mpbe_earaio_boost true now s).trace = queued s.trace ∧
    __mpbe_earaio_boost true s = (2, s) := by
  have h2 : __mpbe_earaio_boost true s = (2, s) := by
    have h : ¬ (EARAIO_UEVT_THRESHOLD_PAGES ≤ s.earaio_ctrl.pwd_top_r_pages ∨
        EARAIO_UEVT_THRESHOLD_PAGES ≤ s.earaio_ctrl.pwd_top_w_pages) := by omega
    simp [__mpbe_earaio_boost, hb, h]
  by_cases hg : s.earaio_ctrl.enabled = false ∨ s.earaio_obj_minor = 0
  · rw [boost_guarded true now s hg]
    exact ⟨hb, rfl, rfl, h2⟩
  · have he : s.earaio_ctrl.enabled = true := by
      cases hen : s.earaio_ctrl.enabled
      · exact absurd (Or.inl hen) hg
      · rfl
    have hm : s.earaio_obj_minor ≠ 0 := fun h => hg (Or.inr h)
    rw [boost_on_declined now s he hm hb hr hw]
    exact ⟨hb, rfl, queued_append_check_window _ _, h2⟩

/-- C2 at a fresh controller, whose counters are both 0. -/
theorem C2_fresh_controller_declined :
    (mpbe_earaio_boost true 5000 (fresh 57 2 1000)).earaio_ctrl.boosted = false ∧
    (mpbe_earaio_boost true 5000 (fresh 57 2 1000)).earaio_ctrl.uevt_req =
      (fresh 57 2 1000).earaio_ctrl.uevt_req ∧
    queued (mpbe_earaio_boost true 5000 (fresh 57 2 1000)).trace =
      queued (fresh 57 2 1000).trace ∧
    __mpbe_earaio_boost true (fresh 57 2 1000) = (2, fresh 57 2 1000) :=
  C2_threshold_monotonicity 5000 (fresh 57 2 1000) (by decide) (by decide) (by decide)

/-! ## C3: unconditional relax -/

/-- C3 fails on the code at two reachable boosted states.  In `reinit_failed`
the controller is boosted and a second `mpbe_earaio_init` has set
`earaio_obj.minor` to 0; in `raced_disable` a `'0'` control write cleared
`enabled` after `mpbe_earaio_check_pwd` boosted between its two statements.
In both `mpbe_earaio_boost(false)` returns at its first test and changes
nothing: `boosted` stays true and no announcement is requested.  On the
boosted controller of scenario B, where that test passes, the same call
clears `boosted`, requests the `false` announcement and calls
`mpbe_mictx_check_window`. -/
theorem C3_boost_off_returns_at_guard :
    (Reachable reinit_failed ∧
      reinit_failed.earaio_ctrl.boosted = true ∧
      reinit_failed.earaio_ctrl.enabled = true ∧
      reinit_failed.earaio_obj_minor = 0 ∧
      mpbe_earaio_boost false 300000000 reinit_failed = reinit_failed) ∧
    (Reachable raced_disable ∧
      raced_disable.earaio_ctrl.boosted = true ∧
      raced_disable.earaio_ctrl.enabled = false ∧
      raced_disable.earaio_obj_minor = 57 ∧
      mpbe_earaio_boost false 300000000 raced_disable = raced_disable) ∧
    (scenario_B_state.earaio_ctrl.boosted = true ∧
      (mpbe_earaio_boost false 300000000 scenario_B_state).earaio_ctrl.boosted = false ∧
      (mpbe_earaio_boost false 300000000 scenario_B_state).earaio_ctrl.uevt_req = false ∧
      (mpbe_earaio_boost false 300000000 scenario_B_state).trace =
        scenario_B_state.trace ++ [Call.queue_work, Call.mpbe_mictx_check_window 2]) :=
  ⟨⟨reachable_reinit_failed, by decide, by decide, by decide, by decide⟩,
   ⟨reachable_raced_disable, by decide, by decide, by decide, by decide⟩,
   by decide, by decide, by decide, by decide⟩

/-! ## C4: window reset law -/

/-- C4, as stated, fails on a disabled controller: `disabled_busy` is reachable
and `mpbe_earaio_boost(true)` at time 5000 returns before the reset, leaving
10240 write pages and the old window start 1000. -/
theorem C4_disabled_controller_keeps_window :
    Reachable disabled_busy ∧
    (mpbe_earaio_boost true 5000 disabled_busy).earaio_ctrl.pwd_top_w_pages = 10240 ∧
    (mpbe_earaio_boost true 5000 disabled_busy).earaio_ctrl.pwd_begin = 1000 :=
  ⟨reachable_disabled_busy, by decide, by decide⟩

/-- C4, amended: in every state that is enabled and has the misc device
registered (`earaio_obj.minor ≠ 0`), after `mpbe_earaio_boost(true)` (boosted,
declined or already boosted) and after a successful `mpbe_earaio_boost(false)`
(the state was boosted) both counters are 0 and `pwd_begin` is the clock value
read by the call. -/
theorem C4_window_reset_law (b : Bool) (now : Nat) (s : Machine)
    (he : s.earaio_ctrl.enabled = true) (hm : s.earaio_obj_minor ≠ 0)
    (hcase : b = true ∨ s.earaio_ctrl.boosted = true) :
    (mpbe_earaio_boost b now s).earaio_ctrl.pwd_top_r_pages = 0 ∧
    (mpbe_earaio_boost b now s).earaio_ctrl.pwd_top_w_pages = 0 ∧
    (mpbe_earaio_boost b now s).earaio_ctrl.pwd_begin = now :=
  boost_resets_window b now s he hm hcase

/-- C4 at the declined boost of scenario C: 1024 read pages and window start
1000 become 0 pages and window start 5000. -/
theorem C4_declined_boost_resets :
    scenario_C_state.earaio_ctrl.pwd_top_r_pages = 1024 ∧
    scenario_C_state.earaio_ctrl.pwd_begin = 1000 ∧
    ((mpbe_earaio_boost true 5000 scenario_C_state).earaio_ctrl.pwd_top_r_pages = 0 ∧
     (mpbe_earaio_boost true 5000 scenario_C_state).earaio_ctrl.pwd_top_w_pages = 0 ∧
     (mpbe_earaio_boost true 5000 scenario_C_state).earaio_ctrl.pwd_begin = 5000) :=
  ⟨by decide, by decide,
   C4_window_reset_law true 5000 scenario_C_state (by decide) (by decide) (Or.inl rfl)⟩

/-! ## C5: convergence of the delivery loop -/

/-- C5: after any finite sequence of `mpbe_earaio_send_uevt` calls, a run of
`mpbe_earaio_uevt_worker` in which some `kobject_uevent_env` call returns 0
terminates, and on return `uevt_state` equals `uevt_req`, which is the value
of the last request (the old `uevt_req` if there was none).  Every run that
returns does so with `uevt_state = uevt_req`.  A pass whose
`kobject_uevent_env` fails changes nothing but the trace and is followed by
another pass. -/
theorem C5_convergence (reqs : List Bool) (rets : List Int) (s : Machine)
    (hok : (0 : Int) ∈ rets) :
    (∃ s', mpbe_earaio_uevt_worker rets
          (reqs.foldl (fun m b => (mpbe_earaio_send_uevt b m).2) s) = some s' ∧
        s'.earaio_ctrl.uevt_state = s'.earaio_ctrl.uevt_req ∧
        s'.earaio_ctrl.uevt_req = reqs.getLast?.getD s.earaio_ctrl.uevt_req) ∧
    (∀ (rets0 : List Int) (s0 s1 : Machine),
        mpbe_earaio_uevt_worker rets0 s0 = some s1 →
        s1.earaio_ctrl.uevt_state = s1.earaio_ctrl.uevt_req) ∧
    (∀ (r : Int) (rest : List Int) (s0 : Machine), r ≠ 0 →
        s0.earaio_ctrl.uevt_state ≠ s0.earaio_ctrl.uevt_req →
        mpbe_earaio_uevt_worker (r :: rest) s0 =
          mpbe_earaio_uevt_worker rest
            { s0 with
              trace := s0.trace ++
                [Call.kobject_uevent_env (event_string s0.earaio_ctrl.uevt_req) r] }) := by
  refine ⟨?_, ?_, ?_⟩
  · obtain ⟨s', hs'⟩ := worker_terminates rets
      (reqs.foldl (fun m b => (mpbe_earaio_send_uevt b m).2) s) hok
    have hres := (worker_result rets _ s' hs').1
    refine ⟨s', hs', ?_, ?_⟩
    · rw [hres]
    · rw [hres]
      exact send_uevt_sequence reqs s
  · intro rets0 s0 s1 h
    rw [(worker_result rets0 s0 s1 h).1]
  · intro r rest s0 hr hne
    exact worker_failed_pass r rest s0 hr hne

/-- C5 at the requests true, false, true on a fresh controller, with two
failed announcements (`-5`) before one that succeeds. -/
theorem C5_three_requests_two_failures :
    (0 : Int) ∈ [(-5 : Int), -5, 0] ∧
    mpbe_earaio_uevt_worker [-5, -5, 0]
        ([true, false, true].foldl (fun m b => (mpbe_earaio_send_uevt b m).2)
          (fresh 57 2 1000)) =
      some
        { (fresh 57 2 1000) with
          earaio_ctrl :=
            { (fresh 57 2 1000).earaio_ctrl with uevt_req := true, uevt_state := true },
          trace := (fresh 57 2 1000).trace ++
            [Call.queue_work, Call.queue_work, Call.queue_work,
             Call.kobject_uevent_env (event_string true) (-5),
             Call.kobject_uevent_env (event_string true) (-5),
             Call.kobject_uevent_env (event_string true) 0] } ∧
    (∃ s', mpbe_earaio_uevt_worker [-5, -5, 0]
          ([true, false, true].foldl (fun m b => (mpbe_earaio_send_uevt b m).2)
            (fresh 57 2 1000)) = some s' ∧
        s'.earaio_ctrl.uevt_state = s'.earaio_ctrl.uevt_req ∧
        s'.earaio_ctrl.uevt_req =
          [true, false, true].getLast?.getD (fresh 57 2 1000).earaio_ctrl.uevt_req) :=
  ⟨by decide, by decide,
   (C5_convergence [true, false, true] [-5, -5, 0] (fresh 57 2 1000) (by decide)).1⟩

/-! ## C6: telemetry notification -/

/-- C6, as stated, fails on a disabled controller: `disabled_idle` is reachable,
not boosted, with both counters 0, and `mpbe_earaio_boost(true)` returns
without calling `mpbe_mictx_check_window`. -/
theorem C6_disabled_controller_no_check_window :
    Reachable disabled_idle ∧
    disabled_idle.earaio_ctrl.boosted = false ∧
    disabled_idle.earaio_ctrl.pwd_top_r_pages < EARAIO_UEVT_THRESHOLD_PAGES ∧
    disabled_idle.earaio_ctrl.pwd_top_w_pages < EARAIO_UEVT_THRESHOLD_PAGES ∧
    window_checks (mpbe_earaio_boost true 5000 disabled_idle).trace =
      window_checks disabled_idle.trace :=
  ⟨reachable_disabled_idle, by decide, by decide, by decide, by decide⟩

/-- C6, amended: `mpbe_earaio_boost(boost)` calls `mpbe_mictx_check_window` exactly
once when the controller is enabled with the misc device registered
(`earaio_obj.minor ≠ 0`) and the call is a declined boost-on (`boost`, not
boosted, both counters below the threshold) or a successful boost-off (not
`boost`, boosted); in every other case it does not call it. -/
theorem C6_telemetry_notification (boost : Bool) (now : Nat) (s : Machine) :
    window_checks (mpbe_earaio_boost boost now s).trace =
      window_checks s.trace +
        (if s.earaio_ctrl.enabled = true ∧ s.earaio_obj_minor ≠ 0 ∧
            ((boost = true ∧ s.earaio_ctrl.boosted = false ∧
                s.earaio_ctrl.pwd_top_r_pages < EARAIO_UEVT_THRESHOLD_PAGES ∧
                s.earaio_ctrl.pwd_top_w_pages < EARAIO_UEVT_THRESHOLD_PAGES) ∨
             (boost = false ∧ s.earaio_ctrl.boosted = true))
         then 1 else 0) := by
  by_cases hg : s.earaio_ctrl.enabled = false ∨ s.earaio_obj_minor = 0
  · rw [boost_guarded boost now s hg]
    rcases hg with h | h <;> simp [h]
  · obtain ⟨he, hm⟩ := guard_open s hg
    cases boost with
    | true =>
      cases hb : s.earaio_ctrl.boosted with
      | true =>
        rw [boost_on_already now s he hm hb]
        simp [he, hm]
      | false =>
        by_cases ht : EARAIO_UEVT_THRESHOLD_PAGES ≤ s.earaio_ctrl.pwd_top_r_pages ∨
            EARAIO_UEVT_THRESHOLD_PAGES ≤ s.earaio_ctrl.pwd_top_w_pages
        · rw [boost_on_trigger now s he hm hb ht]
          have : ¬ (s.earaio_ctrl.pwd_top_r_pages < EARAIO_UEVT_THRESHOLD_PAGES ∧
              s.earaio_ctrl.pwd_top_w_pages < EARAIO_UEVT_THRESHOLD_PAGES) := by omega
          simp [he, hm, this, window_checks_append_queue_work]
        · have hr : s.earaio_ctrl.pwd_top_r_pages < EARAIO_UEVT_THRESHOLD_PAGES := by omega
          have hw : s.earaio_ctrl.pwd_top_w_pages < EARAIO_UEVT_THRESHOLD_PAGES := by omega
          rw [boost_on_declined now s he hm hb hr hw]
          simp [he, hm, hr, hw, window_checks_append_check_window]
    | false =>
      cases hb : s.earaio_ctrl.boosted with
      | true =>
        rw [boost_off_changed now s he hm hb]
        simp [he, hm, window_checks, List.filter_append]
      | false =>
        rw [boost_off_unchanged now s hb]
        simp

/-- C6, scenario C: enabled, not boosted, 1024 read pages; the check 101 ms
after the window start leaves `boosted` false, empties the window and calls
`mpbe_mictx_check_window` once. -/
theorem C6_scenario_C :
    mpbe_earaio_check_pwd (1000 + 101000000) (1000 + 101000050) scenario_C_state =
      mpbe_earaio_boost true (1000 + 101000050) scenario_C_state ∧
    (mpbe_earaio_boost true (1000 + 101000050) scenario_C_state).earaio_ctrl.boosted = false ∧
    (mpbe_earaio_boost true (1000 + 101000050) scenario_C_state).earaio_ctrl.pwd_top_r_pages = 0 ∧
    (mpbe_earaio_boost true (1000 + 101000050) scenario_C_state).earaio_ctrl.pwd_top_w_pages = 0 ∧
    (mpbe_earaio_boost true (1000 + 101000050) scenario_C_state).earaio_ctrl.pwd_begin =
      1000 + 101000050 ∧
    window_checks (mpbe_earaio_boost true (1000 + 101000050) scenario_C_state).trace =
      window_checks scenario_C_state.trace + 1 :=
  ⟨by decide, by decide, by decide, by decide, by decide,
   (C6_telemetry_notification true (1000 + 101000050) scenario_C_state).trans (by decide)⟩

/-! ## C7: disabling forces an un-boost -/

/-- C7 fails on the code at two reachable states.  At `reinit_failed` (boosted,
`earaio_obj.minor` set to 0 by a second `mpbe_earaio_init`) the control write
`"0"` returns 1 and clears `enabled`, but its `mpbe_earaio_boost(false)`
returned at the first test, so the result is disabled and still boosted.
`raced_disable` is the result of a control write `"0"` on the controller of
scenario A with `mpbe_earaio_check_pwd` running between line 217 and line 218:
it is disabled and boosted although the controller was not boosted when the
write began.  Run from start to end on the boosted controller of scenario B
the same write ends disabled and not boosted. -/
theorem C7_disable_leaves_controller_boosted :
    (Reachable reinit_failed ∧
      reinit_failed.earaio_ctrl.boosted = true ∧
      mpbe_earaio_ctrl_sub_write [('0').toNat] 1 300000000 reinit_failed =
        (1, ctrl_disable_store reinit_failed) ∧
      (mpbe_earaio_ctrl_sub_write [('0').toNat] 1 300000000
        reinit_failed).2.earaio_ctrl.enabled = false ∧
      (mpbe_earaio_ctrl_sub_write [('0').toNat] 1 300000000
        reinit_failed).2.earaio_ctrl.boosted = true) ∧
    (Reachable raced_disable ∧
      scenario_A_state.earaio_ctrl.boosted = false ∧
      raced_disable.earaio_ctrl.enabled = false ∧
      raced_disable.earaio_ctrl.boosted = true) ∧
    ((mpbe_earaio_ctrl_sub_write [('0').toNat] 1 300000000
        scenario_B_state).2.earaio_ctrl.enabled = false ∧
      (mpbe_earaio_ctrl_sub_write [('0').toNat] 1 300000000
        scenario_B_state).2.earaio_ctrl.boosted = false) :=
  ⟨⟨reachable_reinit_failed, by decide, by decide, by decide, by decide⟩,
   ⟨reachable_raced_disable, by decide, by decide, by decide⟩,
   by decide, by decide⟩

/-! ## C8: invalid command rejection -/

/-- C8: `mpbe_earaio_ctrl_sub_write` returns -1 exactly when the input is empty
(`count = 0`) or its first byte is neither `'1'` nor `'0'` (an unreadable
buffer has no first byte), and whenever it returns -1 the whole state,
trace included, is unchanged; for a first byte of `'1'` or `'0'` with
`count > 0` it therefore does not return -1. -/
theorem C8_invalid_command_rejection (ubuf : List Nat) (count now : Nat) (s : Machine) :
    ((mpbe_earaio_ctrl_sub_write ubuf count now s).1 = -1 ↔
      (count = 0 ∨ (ubuf.head? ≠ some ('1').toNat ∧ ubuf.head? ≠ some ('0').toNat))) ∧
    ((mpbe_earaio_ctrl_sub_write ubuf count now s).1 = -1 →
      (mpbe_earaio_ctrl_sub_write ubuf count now s).2 = s) := by
  cases ubuf with
  | nil =>
    rw [ctrl_sub_write_fault]
    simp
  | cons c rest =>
    by_cases h0 : count = 0
    · subst h0
      rw [ctrl_sub_write_empty]
      simp
    · rw [ctrl_sub_write_char c rest count now s (by omega)]
      by_cases h1 : c = ('1').toNat
      · rw [if_pos h1]
        simp [h0, h1]
      · rw [if_neg h1]
        by_cases h2 : c = ('0').toNat
        · rw [if_pos h2]
          simp [h0, h2]
        · rw [if_neg h2]
          simp [h0]
          exact ⟨h1, h2⟩

/-- C8, scenario D: the control write `"2"` returns -1 and leaves the state of
scenario A as it was. -/
theorem C8_scenario_D :
    mpbe_earaio_ctrl_sub_write [('2').toNat] 1 5000 scenario_A_state = (-1, scenario_A_state) ∧
    (mpbe_earaio_ctrl_sub_write [('2').toNat] 1 5000 scenario_A_state).2 = scenario_A_state :=
  ⟨by decide,
   (C8_invalid_command_rejection [('2').toNat] 1 5000 scenario_A_state).2 (by decide)⟩

/-! ## C9: idempotence -/

/-- C9: for every state and every `b`, of two `mpbe_earaio_boost(b)` calls in a
row (clock reads `t1`, then `t2`) the second changes neither `boosted` nor
`uevt_req` and makes no `queue_work` call, so the two calls together call
`queue_work` at most once and change `boosted` at most once. -/
theorem C9_idempotence (b : Bool) (t1 t2 : Nat) (s : Machine) :
    (mpbe_earaio_boost b t2 (mpbe_earaio_boost b t1 s)).earaio_ctrl.boosted =
      (mpbe_earaio_boost b t1 s).earaio_ctrl.boosted ∧
    (mpbe_earaio_boost b t2 (mpbe_earaio_boost b t1 s)).earaio_ctrl.uevt_req =
      (mpbe_earaio_boost b t1 s).earaio_ctrl.uevt_req ∧
    queued (mpbe_earaio_boost b t2 (mpbe_earaio_boost b t1 s)).trace =
      queued (mpbe_earaio_boost b t1 s).trace ∧
    queued (mpbe_earaio_boost b t2 (mpbe_earaio_boost b t1 s)).trace ≤ queued s.trace + 1 ∧
    (if (mpbe_earaio_boost b t1 s).earaio_ctrl.boosted = s.earaio_ctrl.boosted then 0 else 1) +
      (if (mpbe_earaio_boost b t2 (mpbe_earaio_boost b t1 s)).earaio_ctrl.boosted =
          (mpbe_earaio_boost b t1 s).earaio_ctrl.boosted then 0 else 1) ≤ 1 := by
  have key : (mpbe_earaio_boost b t2 (mpbe_earaio_boost b t1 s)).earaio_ctrl.boosted =
        (mpbe_earaio_boost b t1 s).earaio_ctrl.boosted ∧
      (mpbe_earaio_boost b t2 (mpbe_earaio_boost b t1 s)).earaio_ctrl.uevt_req =
        (mpbe_earaio_boost b t1 s).earaio_ctrl.uevt_req ∧
      queued (mpbe_earaio_boost b t2 (mpbe_earaio_boost b t1 s)).trace =
        queued (mpbe_earaio_boost b t1 s).trace ∧
      queued (mpbe_earaio_boost b t1 s).trace ≤ queued s.trace + 1 := by
    by_cases hg : s.earaio_ctrl.enabled = false ∨ s.earaio_obj_minor = 0
    · rw [boost_guarded b t1 s hg, boost_guarded b t2 s hg]
      exact ⟨rfl, rfl, rfl, Nat.le_succ _⟩
    · obtain ⟨he, hm⟩ := guard_open s hg
      cases b with
      | true =>
        obtain ⟨h1, hq⟩ := boost_on_first t1 s he hm
        obtain ⟨k1, k2, k3⟩ := boost_on_again t2 _ h1
        exact ⟨k1, k2, k3, hq⟩
      | false =>
        obtain ⟨h1, hq⟩ := boost_off_first t1 s he hm
        rw [boost_off_unchanged t2 _ h1]
        exact ⟨rfl, rfl, rfl, hq⟩
  obtain ⟨k1, k2, k3, k4⟩ := key
  refine ⟨k1, k2, k3, k3 ▸ k4, ?_⟩
  rw [if_pos k1]
  split <;> simp

/-! ## C10: counter monotonicity within a window -/

/-- C10, as stated, fails when the addition wraps: with 32-bit counters and the
write counter at 4294967295, `mpbe_earaio_update_pwd(true, 4096)` adds one page
and leaves the counter at 0, lower than before, while `pwd_begin` and the read
counter are untouched, so no window reset took place.  The same happens at
the top of the range for every counter width `k + 1`. -/
theorem C10_counter_wraps :
    (full_counter.earaio_ctrl.pwd_top_w_pages = 4294967295 ∧
      (mpbe_earaio_update_pwd 32 true 4096 full_counter).earaio_ctrl.pwd_top_w_pages = 0 ∧
      (mpbe_earaio_update_pwd 32 true 4096 full_counter).earaio_ctrl.pwd_top_w_pages <
        full_counter.earaio_ctrl.pwd_top_w_pages ∧
      (mpbe_earaio_update_pwd 32 true 4096 full_counter).earaio_ctrl.pwd_begin =
        full_counter.earaio_ctrl.pwd_begin ∧
      (mpbe_earaio_update_pwd 32 true 4096 full_counter).earaio_ctrl.pwd_top_r_pages =
        full_counter.earaio_ctrl.pwd_top_r_pages) ∧
    (∀ k : Nat,
      (mpbe_earaio_update_pwd (k + 1) true 4096
          (saturated (k + 1))).earaio_ctrl.pwd_top_w_pages <
        (saturated (k + 1)).earaio_ctrl.pwd_top_w_pages) :=
  ⟨⟨by decide, by decide, by decide, by decide, by decide⟩,
   fun k => by rw [saturated_wraps k]; exact saturated_pos k⟩

/-- C10, amended: in every state, `mpbe_earaio_update_pwd(write, size)` sets the
matching counter to its old value plus `size >> 12`, reduced modulo
`2 ^ bits` (the width of the counter), and leaves the other counter and
`pwd_begin` unchanged.  If the sum is below `2 ^ bits` the counter grows by
exactly `size >> 12`, so no counter decreases.  If the sum is not below
`2 ^ bits`, for a counter of at least 20 bits holding a value below
`2 ^ bits`, the counter ends at the sum minus `2 ^ bits`, which is lower than
before.  Every other entry point either keeps the window or sets both
counters to 0 and `pwd_begin` to the clock value it read. -/
theorem C10_counter_monotonicity (bits : Nat) (write : Bool) (size : Nat) (s : Machine) :
    ((mpbe_earaio_update_pwd bits write size s).earaio_ctrl.pwd_top_w_pages =
        (if write = true then
          (s.earaio_ctrl.pwd_top_w_pages + ((size % 2 ^ 32) >>> 12)) % 2 ^ bits
         else s.earaio_ctrl.pwd_top_w_pages) ∧
      (mpbe_earaio_update_pwd bits write size s).earaio_ctrl.pwd_top_r_pages =
        (if write = true then s.earaio_ctrl.pwd_top_r_pages
         else (s.earaio_ctrl.pwd_top_r_pages + ((size % 2 ^ 32) >>> 12)) % 2 ^ bits) ∧
      (mpbe_earaio_update_pwd bits write size s).earaio_ctrl.pwd_begin =
        s.earaio_ctrl.pwd_begin) ∧
    ((if write = true then s.earaio_ctrl.pwd_top_w_pages
        else s.earaio_ctrl.pwd_top_r_pages) + ((size % 2 ^ 32) >>> 12) < 2 ^ bits →
      (mpbe_earaio_update_pwd bits write size s).earaio_ctrl.pwd_top_w_pages =
        s.earaio_ctrl.pwd_top_w_pages + (if write = true then (size % 2 ^ 32) >>> 12 else 0) ∧
      (mpbe_earaio_update_pwd bits write size s).earaio_ctrl.pwd_top_r_pages =
        s.earaio_ctrl.pwd_top_r_pages + (if write = true then 0 else (size % 2 ^ 32) >>> 12) ∧
      s.earaio_ctrl.pwd_top_w_pages ≤
        (mpbe_earaio_update_pwd bits write size s).earaio_ctrl.pwd_top_w_pages ∧
      s.earaio_ctrl.pwd_top_r_pages ≤
        (mpbe_earaio_update_pwd bits write size s).earaio_ctrl.pwd_top_r_pages) ∧
    (20 ≤ bits →
      (if write = true then s.earaio_ctrl.pwd_top_w_pages
        else s.earaio_ctrl.pwd_top_r_pages) < 2 ^ bits →
      2 ^ bits ≤ (if write = true then s.earaio_ctrl.pwd_top_w_pages
        else s.earaio_ctrl.pwd_top_r_pages) + ((size % 2 ^ 32) >>> 12) →
      (if write = true then
          (mpbe_earaio_update_pwd bits write size s).earaio_ctrl.pwd_top_w_pages
        else (mpbe_earaio_update_pwd bits write size s).earaio_ctrl.pwd_top_r_pages) =
        (if write = true then s.earaio_ctrl.pwd_top_w_pages
          else s.earaio_ctrl.pwd_top_r_pages) + ((size % 2 ^ 32) >>> 12) - 2 ^ bits ∧
      (if write = true then
          (mpbe_earaio_update_pwd bits write size s).earaio_ctrl.pwd_top_w_pages
        else (mpbe_earaio_update_pwd bits write size s).earaio_ctrl.pwd_top_r_pages) <
        (if write = true then s.earaio_ctrl.pwd_top_w_pages
          else s.earaio_ctrl.pwd_top_r_pages)) ∧
    ((∀ (b : Bool) (now : Nat) (m : Machine),
        window (mpbe_earaio_boost b now m) = window m ∨
        window (mpbe_earaio_boost b now m) = (0, 0, now)) ∧
      (∀ (now now_boost : Nat) (m : Machine),
        window (mpbe_earaio_check_pwd now now_boost m) = window m ∨
        window (mpbe_earaio_check_pwd now now_boost m) = (0, 0, now_boost)) ∧
      (∀ (ubuf : List Nat) (count now : Nat) (m : Machine),
        window (mpbe_earaio_ctrl_sub_write ubuf count now m).2 = window m ∨
        window (mpbe_earaio_ctrl_sub_write ubuf count now m).2 = (0, 0, now)) ∧
      (∀ (v : Bool) (st now : Nat) (m : Machine),
        window (mpbe_earaio_init_mictx v st now m) = window m ∨
        window (mpbe_earaio_init_mictx v st now m) = (0, 0, now)) ∧
      (∀ (rets : List Int) (m m' : Machine),
        mpbe_earaio_uevt_worker rets m = some m' → window m' = window m) ∧
      (∀ (reg_ret reg_minor uevt_ret : Int) (m : Machine),
        window (mpbe_earaio_init reg_ret reg_minor uevt_ret m).2 = window m) ∧
      (∀ (b : Bool) (m : Machine), window (mpbe_earaio_send_uevt b m).2 = window m)) := by
  refine ⟨?_, ?_, ?_, ⟨boost_window, check_pwd_window, ctrl_sub_write_window,
    init_mictx_window, worker_window, ?_, ?_⟩⟩
  · cases write <;> simp [mpbe_earaio_update_pwd]
  · intro hfit
    cases write
    · simp only [Bool.false_eq_true, if_false] at hfit
      have hmod := Nat.mod_eq_of_lt hfit
      simp only [mpbe_earaio_update_pwd, Bool.false_eq_true, if_false, hmod, Nat.add_zero]
      exact ⟨trivial, trivial, le_refl _, Nat.le_add_right _ _⟩
    · simp only [if_true] at hfit
      have hmod := Nat.mod_eq_of_lt hfit
      simp only [mpbe_earaio_update_pwd, if_true, hmod, Nat.add_zero]
      exact ⟨trivial, trivial, Nat.le_add_right _ _, le_refl _⟩
  · intro hbits hlt hwrap
    have hp : (size % 2 ^ 32) >>> 12 < 2 ^ bits := lt_of_lt_of_le (pages_lt size)
      (Nat.pow_le_pow_right (by decide) hbits)
    cases write
    · simp only [Bool.false_eq_true, if_false] at hlt hwrap ⊢
      exact counter_wrap bits _ _ hlt hp hwrap
    · simp only [if_true] at hlt hwrap ⊢
      exact counter_wrap bits _ _ hlt hp hwrap
  · intro reg_ret reg_minor uevt_ret m
    simp [window, init_keeps_ctrl]
  · intro b m
    rfl

/-- C10 at scenario A: 40 MiB of writes on a fresh controller with 32-bit
counters raise the write counter from 0 to 10240 and leave the read counter
and the window start alone. -/
theorem C10_scenario_A_accounting :
    (mpbe_earaio_update_pwd 32 true (40 * 1024 * 1024) (fresh 57 2 1000)).earaio_ctrl.pwd_top_w_pages
      = 10240 ∧
    ((mpbe_earaio_update_pwd 32 true (40 * 1024 * 1024)
          (fresh 57 2 1000)).earaio_ctrl.pwd_top_w_pages =
        (fresh 57 2 1000).earaio_ctrl.pwd_top_w_pages +
          (if true = true then ((40 * 1024 * 1024) % 2 ^ 32) >>> 12 else 0) ∧
      (mpbe_earaio_update_pwd 32 true (40 * 1024 * 1024)
          (fresh 57 2 1000)).earaio_ctrl.pwd_top_r_pages =
        (fresh 57 2 1000).earaio_ctrl.pwd_top_r_pages +
          (if true = true then 0 else ((40 * 1024 * 1024) % 2 ^ 32) >>> 12) ∧
      (fresh 57 2 1000).earaio_ctrl.pwd_top_w_pages ≤
        (mpbe_earaio_update_pwd 32 true (40 * 1024 * 1024)
          (fresh 57 2 1000)).earaio_ctrl.pwd_top_w_pages ∧
      (fresh 57 2 1000).earaio_ctrl.pwd_top_r_pages ≤
        (mpbe_earaio_update_pwd 32 true (40 * 1024 * 1024)
          (fresh 57 2 1000)).earaio_ctrl.pwd_top_r_pages) ∧
    ((mpbe_earaio_update_pwd 32 true 8192 full_counter).earaio_ctrl.pwd_top_w_pages =
        full_counter.earaio_ctrl.pwd_top_w_pages + ((8192 % 2 ^ 32) >>> 12) - 2 ^ 32 ∧
      (mpbe_earaio_update_pwd 32 true 8192 full_counter).earaio_ctrl.pwd_top_w_pages <
        full_counter.earaio_ctrl.pwd_top_w_pages) :=
  ⟨by decide,
   (C10_counter_monotonicity 32 true (40 * 1024 * 1024) (fresh 57 2 1000)).2.1 (by decide),
   (C10_counter_monotonicity 32 true 8192 full_counter).2.2.1 (by decide) (by decide)
     (by decide)⟩

end MpbeEaraio
